import Mathlib

/-!
Verification of the task-list sync client (`src/javascript-web/src/App.tsx`).

The development shallowly embeds the lifecycle logic of the component:
the query construction of the observer effect (lines 124-131), the
instance setup chain (lines 61-91), the instance-effect cleanup
(lines 93-108), the observer effect with its handle registry
(lines 112-157), and the four mutation operations (lines 169-215).
Asynchronous SDK calls that can fail are modelled by boolean
environments (`true` = the call succeeds, `false` = it throws), and the
single-threaded effect executions become steps of explicit state
machines.
-/

namespace TasksApp

/-- A task record as declared at lines 15-20 of the source. -/
structure Task where
  _id : String
  title : String
  done : Bool
  deleted : Bool
deriving DecidableEq

/-! ## QueryBuilder (observer effect, lines 124-131) -/

/-- Whitespace test used by `String.prototype.trim` in the source
(`searchQuery.trim()`), modelled by the whitespace predicate on
characters. -/
def isJsWhite (c : Char) : Bool := c.isWhitespace

/-- Remove leading and trailing whitespace from a character list:
the list-level behaviour of `searchQuery.trim()`. -/
def trimList (l : List Char) : List Char :=
  ((l.dropWhile isJsWhite).reverse.dropWhile isJsWhite).reverse

/-- `searchQuery.trim()` on strings. -/
def jsTrim (s : String) : String := ⟨trimList s.data⟩

/-- The parameterized query handed to `registerObserver`: its text and
the value bound to the named parameter `:searchQuery` (absent when no
search clause is appended). -/
structure DQLQuery where
  text : String
  args : Option String
deriving DecidableEq

/-- Query construction of the observer effect, lines 124-131:
start from the base filter, append the `ILIKE` clause and the
wildcard-wrapped argument when `searchQuery && searchQuery.trim() !== ''`,
and always append the ordering clause last. -/
def buildQuery (searchTerm : String) : DQLQuery :=
  if searchTerm ≠ "" ∧ jsTrim searchTerm ≠ "" then
    { text := "SELECT * FROM tasks WHERE deleted=false"
        ++ " AND title ILIKE :searchQuery" ++ " ORDER BY done"
      args := some ("%" ++ jsTrim searchTerm ++ "%") }
  else
    { text := "SELECT * FROM tasks WHERE deleted=false" ++ " ORDER BY done"
      args := none }

/-- `containsSub pat l` decides whether `pat` occurs as a contiguous
substring of `l`. -/
def containsSub (pat l : List Char) : Bool :=
  l.tails.any fun t => pat.isPrefixOf t

/-! ## Helper lemmas about `dropWhile` and trimming -/

theorem dropWhile_dropWhile (p : α → Bool) (l : List α) :
    (l.dropWhile p).dropWhile p = l.dropWhile p := by
  induction l with
  | nil => rfl
  | cons a l ih =>
    rw [List.dropWhile_cons]
    by_cases h : p a
    · simp [h, ih]
    · simp [h, List.dropWhile_cons]

theorem dropWhile_head_false (p : α → Bool) (l : List α) (a : α) (t : List α)
    (h : l.dropWhile p = a :: t) : p a = false := by
  induction l with
  | nil => simp at h
  | cons b l ih =>
    rw [List.dropWhile_cons] at h
    by_cases hb : p b
    · rw [if_pos hb] at h
      exact ih h
    · rw [if_neg hb] at h
      injection h with h1 h2
      subst h1
      simpa using hb

theorem dropWhile_append_ex (p : α → Bool) (l : List α) :
    ∃ u, u ++ l.dropWhile p = l := by
  induction l with
  | nil => exact ⟨[], rfl⟩
  | cons a l ih =>
    rw [List.dropWhile_cons]
    by_cases h : p a
    · obtain ⟨u, hu⟩ := ih
      exact ⟨a :: u, by simp [h, hu]⟩
    · exact ⟨[], by simp [h]⟩

theorem trimList_dropWhile (l : List Char) :
    (trimList l).dropWhile isJsWhite = trimList l := by
  obtain ⟨u, hu⟩ := dropWhile_append_ex isJsWhite (l.dropWhile isJsWhite).reverse
  have hm : trimList l ++ u.reverse = l.dropWhile isJsWhite := by
    have h2 := congrArg List.reverse hu
    simpa [trimList, List.reverse_append] using h2
  rcases hr : trimList l with _ | ⟨a, t⟩
  · simp
  · have hma : l.dropWhile isJsWhite = a :: (t ++ u.reverse) := by
      rw [← hm, hr]
      rfl
    have hpa : isJsWhite a = false := dropWhile_head_false _ _ _ _ hma
    rw [List.dropWhile_cons]
    simp [hpa]

theorem trimList_idem (l : List Char) : trimList (trimList l) = trimList l := by
  have h1 : (trimList l).reverse = (l.dropWhile isJsWhite).reverse.dropWhile isJsWhite := by
    simp [trimList]
  conv_lhs => rw [trimList]
  rw [trimList_dropWhile, h1, dropWhile_dropWhile]
  simp [trimList]

theorem jsTrim_idem (s : String) : jsTrim (jsTrim s) = jsTrim s := by
  simp [jsTrim, trimList_idem]

theorem jsTrim_empty : jsTrim "" = "" := rfl

/-! ## C5 and C10: the derived query -/

/-- C5: `buildQuery ""` has no `ILIKE` clause and its text ends with the
ordering clause `ORDER BY done`; `buildQuery "  "` (whitespace only)
yields exactly the same query text and argument mapping as
`buildQuery ""`; and `buildQuery "milk"` binds the search parameter to
exactly `"%milk%"`. -/
theorem buildQuery_spec :
    containsSub "ILIKE".data (buildQuery "").text.data = false ∧
    "ORDER BY done".data.isSuffixOf (buildQuery "").text.data = true ∧
    buildQuery "  " = buildQuery "" ∧
    (buildQuery "milk").args = some "%milk%" := by
  refine ⟨by decide, by decide, by decide, by decide⟩

/-- C10: the derived query is invariant under trimming of the search
term — `buildQuery` gives the same query text and argument mapping on
`jsTrim s` as on `s`, for every search term `s`. -/
theorem buildQuery_trim_invariant (s : String) :
    buildQuery (jsTrim s) = buildQuery s := by
  by_cases h : jsTrim s = ""
  · have h1 : ¬(jsTrim s ≠ "" ∧ jsTrim (jsTrim s) ≠ "") := fun hc => hc.1 h
    have h2 : ¬(s ≠ "" ∧ jsTrim s ≠ "") := fun hc => hc.2 h
    rw [buildQuery, buildQuery, if_neg h1, if_neg h2]
  · have h1 : jsTrim s ≠ "" ∧ jsTrim (jsTrim s) ≠ "" :=
      ⟨h, by rw [jsTrim_idem]; exact h⟩
    have h2 : s ≠ "" ∧ jsTrim s ≠ "" :=
      ⟨fun hs => h (by rw [hs]; rfl), h⟩
    rw [buildQuery, buildQuery, if_pos h1, if_pos h2, jsTrim_idem]

/-! ## Instance setup chain (`setupDittoInstance`, lines 61-91)

Each SDK call of the chain is a step that either succeeds or throws;
the environment `env` records which. The `try` body runs the steps in
source order and the first throwing step transfers control to the
`catch`, which surfaces the error (`setError`). The source assigns
`ditto.current = newDitto` at line 67, immediately after creation, and
sets `dittoInstanceReady` only at line 82, after the whole chain. -/

inductive SetupStep
  | createInstance
  | setTransportConfig
  | disableSyncWithV3
  | startSync
  | registerSubscription
deriving DecidableEq

/-- The order in which `setupDittoInstance` performs its steps. -/
def setupOrder : List SetupStep :=
  [.createInstance, .setTransportConfig, .disableSyncWithV3,
   .startSync, .registerSubscription]

/-- Outcome of one run of `setupDittoInstance`. `completed` lists the
steps that finished, in order; `dittoRef` is whether `ditto.current` is
non-null afterwards; `subHeld` whether `tasksSubscription.current`
holds a handle; `ready` is the `dittoInstanceReady` flag;
`errorSurfaced` whether the catch block ran `setError`. -/
structure SetupResult where
  completed : List SetupStep
  dittoRef : Bool
  subHeld : Bool
  ready : Bool
  errorSurfaced : Bool
deriving DecidableEq

/-- Straight-line embedding of the `try` body of `setupDittoInstance`
(lines 63-88) under the failure environment `env`: the first step with
`env _ = false` throws, skipping the rest and running the catch. -/
def runSetup (env : SetupStep → Bool) : SetupResult :=
  if !(env .createInstance) then
    ⟨[], false, false, false, true⟩
  else
  -- line 67: ditto.current = newDitto (published before configuration)
  if !(env .setTransportConfig) then
    ⟨[.createInstance], true, false, false, true⟩
  else
  if !(env .disableSyncWithV3) then
    ⟨[.createInstance, .setTransportConfig], true, false, false, true⟩
  else
  if !(env .startSync) then
    ⟨[.createInstance, .setTransportConfig, .disableSyncWithV3],
     true, false, false, true⟩
  else
  if !(env .registerSubscription) then
    ⟨[.createInstance, .setTransportConfig, .disableSyncWithV3, .startSync],
     true, false, false, true⟩
  else
    ⟨setupOrder, true, true, true, false⟩

/-- All SDK calls of the setup chain succeed. -/
def allStepsOk (env : SetupStep → Bool) : Prop := ∀ s, env s = true

/-- Environment in which `disableSyncWithV3` (line 74) throws and every
other step succeeds. -/
def envFailDisable : SetupStep → Bool
  | .disableSyncWithV3 => false
  | _ => true

/-! ## Instance-effect cleanup (lines 93-108) -/

/-- The SDK calls made by the instance-effect cleanup, in source
order. -/
inductive CleanupCall
  | cancelSub
  | cancelObs
  | stopSyncCall
  | closeCall
deriving DecidableEq

/-- The references and flags touched by the cleanup: whether
`tasksSubscription.current` and `tasksObserver.current` hold handles,
whether the closure variable `localDittoInstance` is non-null, whether
`ditto.current` is non-null, and the `dittoInstanceReady` flag. -/
structure CleanupState where
  subHeld : Bool
  obsHeld : Bool
  localInst : Bool
  dittoRef : Bool
  ready : Bool
deriving DecidableEq

/-- Embedding of the cleanup function (lines 93-108). The body has no
try/catch, so a throwing SDK call (`env _ = false`) aborts the
remaining statements; optional-chaining (`?.`) and the `if` at line 98
skip calls whose receiver is null. Returns the final state and the
list of SDK calls attempted, in order. -/
def runCleanup (env : CleanupCall → Bool) (s0 : CleanupState) :
    CleanupState × List CleanupCall :=
  -- line 95: tasksSubscription.current?.cancel()
  let t0 : List CleanupCall := if s0.subHeld then [.cancelSub] else []
  if s0.subHeld && !(env .cancelSub) then (s0, t0) else
  -- line 96: tasksSubscription.current = null
  let s1 := { s0 with subHeld := false }
  -- lines 98-101: cancel and null the observer when one is held
  let t1 := t0 ++ (if s0.obsHeld then [CleanupCall.cancelObs] else [])
  if s0.obsHeld && !(env .cancelObs) then (s1, t1) else
  let s2 := { s1 with obsHeld := false }
  -- line 103: localDittoInstance?.stopSync()
  let t2 := t1 ++ (if s0.localInst then [CleanupCall.stopSyncCall] else [])
  if s0.localInst && !(env .stopSyncCall) then (s2, t2) else
  -- line 104: localDittoInstance?.close()
  let t3 := t2 ++ (if s0.localInst then [CleanupCall.closeCall] else [])
  if s0.localInst && !(env .closeCall) then (s2, t3) else
  -- lines 105-106: ditto.current = null; setDittoInstanceReady(false)
  ({ s2 with dittoRef := false, ready := false }, t3)

/-- All SDK calls of the cleanup succeed. -/
def allCallsOk (env : CleanupCall → Bool) : Prop := ∀ c, env c = true

/-- Environment in which the subscription cancel (line 95) throws and
every other cleanup call succeeds. -/
def envFailCancelSub : CleanupCall → Bool
  | .cancelSub => false
  | _ => true

/-- Cleanup state in which every resource is held. -/
def fullCleanupState : CleanupState := ⟨true, true, true, true, true⟩

/-! ## C2 and C6: the setup chain -/

/-- C2 counterexample: when `disableSyncWithV3` throws, the remaining
steps are skipped and the error is surfaced, yet `ditto.current` has
already been assigned (line 67), so a partially-configured instance
reference is published although the chain did not succeed. -/
theorem setup_publishes_instance_early :
    (runSetup envFailDisable).errorSurfaced = true ∧
    (runSetup envFailDisable).ready = false ∧
    (runSetup envFailDisable).completed ≠ setupOrder ∧
    (runSetup envFailDisable).dittoRef = true := by
  refine ⟨rfl, rfl, by decide, rfl⟩

/-- C2 (amended): if any step of the setup chain fails, the remaining
steps are skipped (the completed steps are exactly the longest
successful prefix), the error is surfaced, and the readiness flag that
gates the observer stage stays false; the instance reference itself,
however, is published as soon as creation succeeds, before the chain
completes. -/
theorem setup_failure_aborts (env : SetupStep → Bool)
    (h : ¬ allStepsOk env) :
    (runSetup env).completed = setupOrder.takeWhile env ∧
    (runSetup env).errorSurfaced = true ∧
    (runSetup env).ready = false ∧
    (runSetup env).dittoRef = env SetupStep.createInstance := by
  by_cases h1 : env .createInstance <;>
    by_cases h2 : env .setTransportConfig <;>
      by_cases h3 : env .disableSyncWithV3 <;>
        by_cases h4 : env .startSync <;>
          by_cases h5 : env .registerSubscription <;>
            first
            | (refine absurd (fun s => ?_) h; cases s <;> assumption)
            | simp [runSetup, setupOrder, List.takeWhile_cons,
                h1, h2, h3, h4, h5]

/-- C2 witness: the amended statement at the concrete failing
environment `envFailDisable`. -/
theorem setup_failure_aborts_witness :
    (runSetup envFailDisable).completed = setupOrder.takeWhile envFailDisable ∧
    (runSetup envFailDisable).errorSurfaced = true ∧
    (runSetup envFailDisable).ready = false ∧
    (runSetup envFailDisable).dittoRef = envFailDisable SetupStep.createInstance :=
  setup_failure_aborts envFailDisable
    (fun hall => by simpa [envFailDisable] using hall SetupStep.disableSyncWithV3)

/-- C6: in every run of the setup chain, if `startSync` was performed
then transport configuration and the awaited `disableSyncWithV3` had
both completed strictly before it: the completed steps start with
`createInstance, setTransportConfig, disableSyncWithV3, startSync`. -/
theorem startSync_after_config (env : SetupStep → Bool)
    (h : SetupStep.startSync ∈ (runSetup env).completed) :
    ∃ rest, (runSetup env).completed =
      [SetupStep.createInstance, SetupStep.setTransportConfig,
       SetupStep.disableSyncWithV3, SetupStep.startSync] ++ rest := by
  by_cases h1 : env .createInstance <;>
    by_cases h2 : env .setTransportConfig <;>
      by_cases h3 : env .disableSyncWithV3 <;>
        by_cases h4 : env .startSync <;>
          by_cases h5 : env .registerSubscription <;>
            simp [runSetup, setupOrder, h1, h2, h3, h4, h5] at h ⊢

/-- C6 witness: the all-success environment performs `startSync`, and
the theorem applies to it. -/
theorem startSync_after_config_witness :
    ∃ rest, (runSetup (fun _ => true)).completed =
      [SetupStep.createInstance, SetupStep.setTransportConfig,
       SetupStep.disableSyncWithV3, SetupStep.startSync] ++ rest :=
  startSync_after_config (fun _ => true) (by decide)

/-! ## C4: the instance-effect cleanup -/

/-- C4 counterexample: when the subscription cancel throws, the cleanup
short-circuits — the observer is never cancelled, sync is never
stopped, the instance is never closed and the references are not
cleared, contradicting the claim that every teardown step executes
even if an earlier one fails. -/
theorem cleanup_short_circuits :
    (runCleanup envFailCancelSub fullCleanupState).2 = [CleanupCall.cancelSub] ∧
    (runCleanup envFailCancelSub fullCleanupState).1.obsHeld = true ∧
    (runCleanup envFailCancelSub fullCleanupState).1.dittoRef = true ∧
    CleanupCall.stopSyncCall ∉ (runCleanup envFailCancelSub fullCleanupState).2 ∧
    CleanupCall.closeCall ∉ (runCleanup envFailCancelSub fullCleanupState).2 := by
  refine ⟨by decide, by decide, by decide, by decide, by decide⟩

/-- C4 (amended): the cleanup performs, in this order, cancel the
subscription, cancel the observer, stop sync, close the instance, and
clear the local references — provided no step throws. When every SDK
call succeeds, all held resources are released in that order and all
references and flags are cleared; a throwing step, however, aborts the
remaining steps (there is no per-step error guard). -/
theorem cleanup_order_and_completion (env : CleanupCall → Bool)
    (s : CleanupState) (h : allCallsOk env) :
    (runCleanup env s).1 = ⟨false, false, s.localInst, false, false⟩ ∧
    (runCleanup env s).2 =
      (if s.subHeld then [CleanupCall.cancelSub] else []) ++
      (if s.obsHeld then [CleanupCall.cancelObs] else []) ++
      (if s.localInst then [CleanupCall.stopSyncCall] else []) ++
      (if s.localInst then [CleanupCall.closeCall] else []) := by
  obtain ⟨a, b, c, d, e⟩ := s
  simp [runCleanup, h CleanupCall.cancelSub, h CleanupCall.cancelObs,
    h CleanupCall.stopSyncCall, h CleanupCall.closeCall]

/-- C4 witness: the amended statement at the all-success environment
and the fully-held state: the four calls happen in the claimed order
and every reference is cleared. -/
theorem cleanup_order_witness :
    (runCleanup (fun _ => true) fullCleanupState).1 = ⟨false, false, true, false, false⟩ ∧
    (runCleanup (fun _ => true) fullCleanupState).2 =
      [CleanupCall.cancelSub, CleanupCall.cancelObs,
       CleanupCall.stopSyncCall, CleanupCall.closeCall] := by
  have h := cleanup_order_and_completion (fun _ => true) fullCleanupState
    (fun c => rfl)
  simpa [fullCleanupState] using h

/-! ## Observer effect (lines 112-157)

The observer effect is the only code that creates, cancels and holds
`StoreObserver` handles for the visible task list. The registry
`handles` records every handle ever created by `registerObserver`
(indexed by creation order) together with whether it has been
cancelled; `obsRef` is `tasksObserver.current`; `tasks` is the visible
task list; `errorSurfaced` records a `setError` from the catch at
line 147. Events are the single-threaded executions that touch these
references: a run of the effect body past its readiness guard, a
cleanup (the effect's own at lines 150-156 or the instance effect's at
lines 98-101), and an SDK invocation of a handle's callback. -/

/-- State of the observer manager. -/
structure ObsState where
  handles : List Bool
  obsRef : Option Nat
  tasks : List Task
  errorSurfaced : Bool
deriving DecidableEq

/-- The events that touch the observer state. `run term regFails` is
an execution of the effect body (lines 119-148) for search term
`term`, where `regFails` tells whether `registerObserver` throws;
`cleanup` is a cleanup execution; `deliver h items` is the SDK
invoking the callback of handle `h` with a result set `items`. -/
inductive ObsEvent
  | run (term : String) (regFails : Bool)
  | cleanup
  | deliver (h : Nat) (items : List Task)
deriving DecidableEq

/-- Mark handle `h` cancelled (`tasksObserver.current.cancel()`). -/
def cancelHandle (handles : List Bool) (h : Nat) : List Bool :=
  handles.set h true

/-- Lines 119-122 and 152-154: cancel the currently held observer
handle, if any (the ref itself is not touched here). -/
def cancelCurrent (s : ObsState) : List Bool :=
  match s.obsRef with
  | some h => cancelHandle s.handles h
  | none => s.handles

/-- One event of the observer manager.
For `run`: the body first cancels the held handle (line 121, without
clearing the ref), then calls `registerObserver` (line 135); on
success the new handle is stored in the ref, on a thrown registration
the catch runs `setError` and the ref keeps its old value.
For `cleanup`: lines 152-154 cancel the held handle and null the ref.
For `deliver`: the callback at lines 137-141 replaces the visible
tasks with the delivered items unconditionally — it performs no
staleness check on the handle it came from. -/
def obsStep (s : ObsState) : ObsEvent → ObsState
  | .run _term true =>
    { s with handles := cancelCurrent s, errorSurfaced := true }
  | .run _term false =>
    { s with handles := cancelCurrent s ++ [false],
             obsRef := some (cancelCurrent s).length }
  | .cleanup =>
    { s with handles := cancelCurrent s, obsRef := none }
  | .deliver h items =>
    if h < s.handles.length then { s with tasks := items } else s

/-- State on mount: no handles, no observer, empty task list. -/
def obsInit : ObsState := ⟨[], none, [], false⟩

/-- The observer state after a sequence of events starting from
mount. -/
def runObs (es : List ObsEvent) : ObsState := es.foldl obsStep obsInit

/-- Invariant of the observer manager: every non-cancelled handle is
the one currently held in `tasksObserver.current`. -/
def ObsInv (s : ObsState) : Prop :=
  ∀ i, s.handles[i]? = some false → s.obsRef = some i

/-! ## Observer invariant lemmas -/

theorem obsInv_init : ObsInv obsInit := by
  intro i hi
  simp [obsInit] at hi

/-- After the cancel prelude of a `run` or a `cleanup`, no handle is
live. -/
theorem cancelCurrent_no_live (s : ObsState) (hinv : ObsInv s) (i : Nat)
    (b : Bool) (hb : (cancelCurrent s)[i]? = some b) : b = true := by
  cases href : s.obsRef with
  | none =>
    have hb' : s.handles[i]? = some b := by
      simpa [cancelCurrent, href] using hb
    cases b with
    | false => exact absurd (hinv i hb') (by simp [href])
    | true => rfl
  | some h0 =>
    have hb' : (s.handles.set h0 true)[i]? = some b := by
      simpa [cancelCurrent, cancelHandle, href] using hb
    by_cases hih : h0 = i
    · subst hih
      by_cases hlen : h0 < s.handles.length
      · rw [List.getElem?_set_self hlen] at hb'
        exact (Option.some_inj.mp hb').symm
      · rw [List.getElem?_eq_none (by simpa using Nat.le_of_not_lt hlen)] at hb'
        exact absurd hb' (by simp)
    · rw [List.getElem?_set_ne hih] at hb'
      cases b with
      | false =>
        have := hinv i hb'
        rw [href] at this
        exact absurd (Option.some_inj.mp this) hih
      | true => rfl


/-- Each event preserves the invariant. -/
theorem obsInv_step (s : ObsState) (e : ObsEvent) (hinv : ObsInv s) :
    ObsInv (obsStep s e) := by
  cases e with
  | run term regFails =>
    cases regFails with
    | true =>
      intro i hi
      simp only [obsStep] at hi
      exact absurd (cancelCurrent_no_live s hinv i false hi) (by simp)
    | false =>
      intro i hi
      simp only [obsStep] at hi ⊢
      rcases Nat.lt_trichotomy i (cancelCurrent s).length with hlt | heq | hgt
      · rw [List.getElem?_append_left hlt] at hi
        exact absurd (cancelCurrent_no_live s hinv i false hi) (by simp)
      · exact congrArg some heq.symm
      · rw [List.getElem?_eq_none (by simp; omega)] at hi
        exact absurd hi (by simp)
  | cleanup =>
    intro i hi
    simp only [obsStep] at hi
    exact absurd (cancelCurrent_no_live s hinv i false hi) (by simp)
  | deliver h items =>
    intro i hi
    by_cases hl : h < s.handles.length
    · simp only [obsStep, if_pos hl] at hi ⊢
      exact hinv i hi
    · simp only [obsStep, if_neg hl] at hi ⊢
      exact hinv i hi

/-- The invariant holds in every reachable state. -/
theorem obsInv_runObs (es : List ObsEvent) : ObsInv (runObs es) := by
  suffices hgen : ∀ (l : List ObsEvent) (s : ObsState), ObsInv s →
      ObsInv (l.foldl obsStep s) by
    exact hgen es obsInit obsInv_init
  intro l
  induction l with
  | nil => exact fun s hs => hs
  | cons e l ih => exact fun s hs => ih _ (obsInv_step s e hs)

/-! ## C3: at most one live observer handle -/

/-- C3: after any sequence of effect runs, cleanups and callback
deliveries, at most one observer handle is live (not cancelled):
any two live handles are the same. The effect body cancels the held
handle and registers its replacement within one synchronous step
(`obsStep` for `ObsEvent.run`), so no interleaving point sees two
live handles. -/
theorem observer_single_live (es : List ObsEvent) (i j : Nat)
    (hi : (runObs es).handles[i]? = some false)
    (hj : (runObs es).handles[j]? = some false) : i = j := by
  have h1 := obsInv_runObs es i hi
  have h2 := obsInv_runObs es j hj
  rw [h1] at h2
  exact Option.some_inj.mp h2

/-- C3 witness: after one effect run, handle 0 is live, and the
theorem applies. -/
theorem observer_single_live_witness :
    (runObs [ObsEvent.run "a" false]).handles[0]? = some false ∧ (0 : Nat) = 0 :=
  ⟨by decide, observer_single_live [ObsEvent.run "a" false] 0 0 (by decide) (by decide)⟩

/-! ## C1: stale callbacks -/

/-- Concrete task used in the stale-callback counterexample. -/
def staleTask : Task := ⟨"t1", "Buy milk", false, false⟩

/-- Two effect runs for successive search terms: handle 0 is
registered and then cancelled when the query changes to "b". -/
def staleEvents : List ObsEvent := [ObsEvent.run "a" false, ObsEvent.run "b" false]

/-- C1 counterexample: after the query changes from "a" to "b",
handle 0 is cancelled and handle 1 is the active observer; yet a
callback still arriving from stale handle 0 replaces the visible task
list — the callback at lines 137-141 writes `setTasks`
unconditionally, with no handle-identity check. -/
theorem stale_callback_overwrites :
    (runObs staleEvents).handles[0]? = some true ∧
    (runObs staleEvents).obsRef = some 1 ∧
    (runObs staleEvents).tasks ≠ [staleTask] ∧
    (obsStep (runObs staleEvents) (ObsEvent.deliver 0 [staleTask])).tasks
      = [staleTask] := by
  refine ⟨by decide, by decide, by decide, by decide⟩

/-- C1 (amended): the callback performs no staleness check of its own:
every delivered callback replaces the visible task list. Provided the
SDK only delivers callbacks of non-cancelled handles, the visible
state is only ever written by the currently active observer: a live
handle is necessarily the one currently held in
`tasksObserver.current`, and its delivery replaces the tasks. -/
theorem live_callback_is_current (es : List ObsEvent) (h : Nat)
    (items : List Task)
    (hlive : (runObs es).handles[h]? = some false) :
    (runObs es).obsRef = some h ∧
    (obsStep (runObs es) (ObsEvent.deliver h items)).tasks = items := by
  refine ⟨obsInv_runObs es h hlive, ?_⟩
  have hlen : h < (runObs es).handles.length :=
    (List.getElem?_eq_some.mp hlive).1
  simp [obsStep, if_pos hlen]

/-- C1 witness: with one registered observer, a delivery from the live
handle 0 writes the task list and handle 0 is the held observer. -/
theorem live_callback_is_current_witness :
    (runObs [ObsEvent.run "a" false]).obsRef = some 0 ∧
    (obsStep (runObs [ObsEvent.run "a" false])
      (ObsEvent.deliver 0 [staleTask])).tasks = [staleTask] :=
  live_callback_is_current [ObsEvent.run "a" false] 0 [staleTask] (by decide)

/-! ## C7: observer registration failure

React runs an effect's cleanup before every re-run of its body and on
unmount. For the observer effect the cleanup (lines 150-156) cancels
the held handle and nulls `tasksObserver.current` (the instance-effect
cleanup at lines 98-101 does the same), so every execution of the body
starts with a null ref; on first mount the ref is null because it is
initialised so at line 26. A realizable trace of the observer manager
is therefore built from composite events: cleanup-then-body on a
dependency change, cleanup alone on unmount, and callback
deliveries. -/

/-- React-scheduled events of the observer effect. -/
inductive ReactEvent
  | rerun (term : String) (regFails : Bool)
  | unmount
  | deliver (h : Nat) (items : List Task)
deriving DecidableEq

/-- One React-scheduled event: the previous effect execution's cleanup
followed by the body (`rerun`; on first mount the cleanup is a no-op
since the ref is null), a standalone cleanup (`unmount`), or a
callback delivery. -/
def reactStep (s : ObsState) : ReactEvent → ObsState
  | .rerun t f => obsStep (obsStep s .cleanup) (.run t f)
  | .unmount => obsStep s .cleanup
  | .deliver h items => obsStep s (.deliver h items)

/-- Observer state after a React-scheduled event sequence from
mount. -/
def runReact (es : List ReactEvent) : ObsState := es.foldl reactStep obsInit

/-- React-scheduled events preserve the observer invariant. -/
theorem obsInv_reactStep (s : ObsState) (e : ReactEvent) (h : ObsInv s) :
    ObsInv (reactStep s e) := by
  cases e with
  | rerun t f => exact obsInv_step _ _ (obsInv_step _ _ h)
  | unmount => exact obsInv_step _ _ h
  | deliver hd items => exact obsInv_step _ _ h

/-- The observer invariant holds after every React-scheduled trace. -/
theorem obsInv_runReact (es : List ReactEvent) : ObsInv (runReact es) := by
  suffices hgen : ∀ (l : List ReactEvent) (s : ObsState), ObsInv s →
      ObsInv (l.foldl reactStep s) by
    exact hgen es obsInit obsInv_init
  intro l
  induction l with
  | nil => exact fun s hs => hs
  | cons e l ih => exact fun s hs => ih _ (obsInv_reactStep s e hs)

/-- A re-run whose registration throws: the cleanup has cancelled the
held handle and nulled the ref, the body's guard at line 119 does not
fire, registration throws and the catch surfaces the error, leaving
the ref null. -/
theorem reactStep_rerun_fail (s : ObsState) (t : String) :
    reactStep s (ReactEvent.rerun t true) =
      { s with handles := cancelCurrent s, obsRef := none,
               errorSurfaced := true } := rfl

/-- C7: if observer registration fails, the error is surfaced and the
observer state is left Absent: under React's scheduling the previous
effect's cleanup has already cancelled the held handle and nulled
`tasksObserver.current` before the body re-runs, so after the failed
registration the ref is null and every handle ever created is
cancelled — no observer handle, new or previously-cancelled, remains
held by the manager. -/
theorem regfail_leaves_absent (es : List ReactEvent) (t : String) :
    (reactStep (runReact es) (ReactEvent.rerun t true)).errorSurfaced = true ∧
    (reactStep (runReact es) (ReactEvent.rerun t true)).obsRef = none ∧
    ∀ (i : Nat) (b : Bool),
      (reactStep (runReact es) (ReactEvent.rerun t true)).handles[i]?
        = some b → b = true := by
  rw [reactStep_rerun_fail]
  refine ⟨rfl, rfl, ?_⟩
  intro i b hb
  exact cancelCurrent_no_live _ (obsInv_runReact es) i b hb

/-- C7 witness: a successful registration for "a" followed by a re-run
for "b" whose registration throws: the error is surfaced, the ref is
null, and the one handle ever created is cancelled. -/
theorem regfail_leaves_absent_witness :
    (reactStep (runReact [ReactEvent.rerun "a" false])
      (ReactEvent.rerun "b" true)).errorSurfaced = true ∧
    (reactStep (runReact [ReactEvent.rerun "a" false])
      (ReactEvent.rerun "b" true)).obsRef = none ∧
    (reactStep (runReact [ReactEvent.rerun "a" false])
      (ReactEvent.rerun "b" true)).handles[0]? = some true ∧
    true = true := by
  have h := regfail_leaves_absent [ReactEvent.rerun "a" false] "b"
  exact ⟨h.1, h.2.1, by decide, h.2.2 0 true (by decide)⟩

/-! ## Mutation operations (lines 169-215)

Each mutation calls `ditto.current?.store.execute(text, args)` inside
`try { ... } catch { console.error(...) }`. The statement-plus-argument
pair actually handed to `execute` is embedded as data
(`DQLStatement`); `dittoAvailable` is whether `ditto.current` is
non-null, and `execOk` whether the awaited `execute` resolves. With a
null ref the optional chaining makes the whole expression `undefined`:
no call is issued, `await undefined` resolves, the catch never runs
and nothing is thrown. -/

/-- The parameterized DQL statements the four mutations can issue,
with their bound arguments. `insertTask` carries the document fields
of the INSERT at lines 171-177; `softDeleteTask` is the UPDATE at
line 209 setting `deleted=true`. -/
inductive DQLStatement
  | insertTask (title : String) (done deleted : Bool)
  | updateTitle (id title : String)
  | updateDone (id : String) (done : Bool)
  | softDeleteTask (id : String)
deriving DecidableEq

/-- Outcome of one mutation call: the statement issued to `execute`
(`none` when the null-guard short-circuited), whether the catch block
reported an error, and whether an exception escaped the function. -/
structure MutationResult where
  issued : Option DQLStatement
  errorReported : Bool
  threw : Bool
deriving DecidableEq

/-- `createTask` (lines 169-181): INSERT with `done=false`,
`deleted=false`. -/
def createTask (dittoAvailable execOk : Bool) (title : String) : MutationResult :=
  if dittoAvailable then
    if execOk then ⟨some (.insertTask title false false), false, false⟩
    else ⟨some (.insertTask title false false), true, false⟩
  else ⟨none, false, false⟩

/-- `editTask` (lines 184-193): UPDATE of `title` only. -/
def editTask (dittoAvailable execOk : Bool) (id title : String) : MutationResult :=
  if dittoAvailable then
    if execOk then ⟨some (.updateTitle id title), false, false⟩
    else ⟨some (.updateTitle id title), true, false⟩
  else ⟨none, false, false⟩

/-- `toggleTask` (lines 195-204): UPDATE of `done` to `!task.done`,
computed from the task value passed by the caller, not re-read from
the store. -/
def toggleTask (dittoAvailable execOk : Bool) (task : Task) : MutationResult :=
  if dittoAvailable then
    if execOk then ⟨some (.updateDone task._id (!task.done)), false, false⟩
    else ⟨some (.updateDone task._id (!task.done)), true, false⟩
  else ⟨none, false, false⟩

/-- `deleteTask` (lines 207-215): UPDATE setting `deleted=true`. -/
def deleteTask (dittoAvailable execOk : Bool) (task : Task) : MutationResult :=
  if dittoAvailable then
    if execOk then ⟨some (.softDeleteTask task._id), false, false⟩
    else ⟨some (.softDeleteTask task._id), true, false⟩
  else ⟨none, false, false⟩

/-- Store semantics of the `UPDATE tasks SET done=:done WHERE _id=:id`
statement, per the query-language surface the store collaborator
exposes: set the `done` field of the records whose `_id` matches the
bound id, leave every other field and record untouched. -/
def applyDoneUpdate (store : List Task) (id : String) (done : Bool) : List Task :=
  store.map fun t => if t._id = id then { t with done := done } else t

/-! ## C8: toggleTask -/

/-- C8: `toggleTask` issues exactly the update `done := !task.done`
computed from the caller's task value, targeted at `task._id`; applying
that update to any store leaves `title` and `deleted` of every record
unchanged, sets `done` of the records with the targeted id to
`!task.done`, and leaves every other record entirely unchanged. -/
theorem toggleTask_frame (store : List Task) (task : Task) (i : Nat)
    (t : Task) (ht : store[i]? = some t) :
    (toggleTask true true task).issued
      = some (DQLStatement.updateDone task._id (!task.done)) ∧
    ∃ t', (applyDoneUpdate store task._id (!task.done))[i]? = some t' ∧
      t'.title = t.title ∧ t'.deleted = t.deleted ∧
      (t._id = task._id → t'.done = !task.done) ∧
      (t._id ≠ task._id → t' = t) := by
  refine ⟨rfl, ?_⟩
  refine ⟨if t._id = task._id then { t with done := !task.done } else t, ?_, ?_, ?_, ?_, ?_⟩
  · rw [applyDoneUpdate, List.getElem?_map, ht]
    rfl
  · by_cases h : t._id = task._id <;> simp [h]
  · by_cases h : t._id = task._id <;> simp [h]
  · intro h
    simp [h]
  · intro h
    simp [h]

/-- Concrete two-task store for the C8 witness. -/
def demoStore : List Task :=
  [⟨"1", "Buy milk", false, false⟩, ⟨"2", "Walk dog", true, false⟩]

/-- C8 witness: toggling the first task of the concrete store. -/
theorem toggleTask_frame_witness :
    (toggleTask true true ⟨"1", "Buy milk", false, false⟩).issued
      = some (DQLStatement.updateDone "1" (!false)) ∧
    ∃ t', (applyDoneUpdate demoStore "1" (!false))[0]? = some t' ∧
      t'.title = "Buy milk" ∧ t'.deleted = false ∧
      ("1" = "1" → t'.done = !false) ∧
      ("1" ≠ "1" → t' = ⟨"1", "Buy milk", false, false⟩) :=
  toggleTask_frame demoStore ⟨"1", "Buy milk", false, false⟩ 0
    ⟨"1", "Buy milk", false, false⟩ (by decide)

/-! ## C9: mutations without an instance -/

/-- C9: when `ditto.current` is null, each of the four mutations is a
silent no-op: the optional chaining short-circuits, so no statement is
issued to the store, no exception escapes, and no error is reported —
regardless of how `execute` would have behaved. -/
theorem mutations_noop_without_instance (execOk : Bool) (title id : String)
    (task : Task) :
    createTask false execOk title = ⟨none, false, false⟩ ∧
    editTask false execOk id title = ⟨none, false, false⟩ ∧
    toggleTask false execOk task = ⟨none, false, false⟩ ∧
    deleteTask false execOk task = ⟨none, false, false⟩ :=
  ⟨rfl, rfl, rfl, rfl⟩

end TasksApp
